import Mathlib

/-!
Verification of the parcel-lifecycle server (`src/unnamed/part_001`, the
final revision of `index.js`).  The Mongo collections are modeled as lists
of documents, the Express handlers as pure functions from a database state
(plus the request data and the outcomes of the external collaborators:
geocoder, mail transport, user-collection write) to the new state, the
HTTP response, the emails handed to `sendMail`, and the number of
`io.emit("status-updated")` broadcasts.
-/

namespace Courier

/-- Geographic coordinate pair: `getCoordinates` parses `lat`/`lon` out of
the Nominatim response. -/
structure Coord where
  lat : Int
  lng : Int
deriving DecidableEq

/-- Denormalized delivery-agent reference stored inside a parcel document
(`parcel.deliveryAgent`); the server only ever reads its `email` field. -/
structure AgentRef where
  email : String
deriving DecidableEq

/-- A parcel document of `parcelsCollection`, with the fields the routes
read or write.  `pid` models the Mongo `_id`, `createdAt` the creation
`Date`, and the two coordinate fields are `none` only before geocoding. -/
structure Parcel where
  pid : Nat
  email : String
  name : String
  pickupAddress : String
  deliveryAddress : String
  parcelSize : String
  paymentType : String
  status : String
  createdAt : Nat
  pickup : Option Coord
  delivery : Option Coord
  deliveryAgent : Option AgentRef
deriving DecidableEq

/-- A user document of `usersCollection`; `availability` is `none` while
the document has no availability field yet. -/
structure User where
  email : String
  role : String
  availability : Option String
deriving DecidableEq

/-- The two Mongo collections the parcel lifecycle touches. -/
structure DB where
  users : List User
  parcels : List Parcel
deriving DecidableEq

/-- Body of `PATCH /parcels/:id` (`const updateData = req.body`); a field
that is `none` is absent from the JSON body, so `$set` leaves it alone. -/
structure ParcelUpdate where
  status : Option String
  deliveryAgent : Option AgentRef
  createdAt : Option Nat
deriving DecidableEq

/-- Mongo `$set` of the fields present in `updateData` onto a parcel
document. -/
def applyUpdate (p : Parcel) (u : ParcelUpdate) : Parcel :=
  { p with
    status := u.status.getD p.status
    deliveryAgent := match u.deliveryAgent with
      | some a => some a
      | none => p.deliveryAgent
    createdAt := u.createdAt.getD p.createdAt }

/-- Model of `parcelsCollection.updateOne({ _id: new ObjectId(id) },
{ $set: updateData })`: apply the `$set` to the first document whose `_id`
matches.  The second component is the reported `modifiedCount`, which is 1
only when the matched document actually changed. -/
def updateOneParcel : List Parcel → Nat → ParcelUpdate → List Parcel × Nat
  | [], _, _ => ([], 0)
  | p :: rest, id, u =>
    if p.pid == id then
      (applyUpdate p u :: rest, if applyUpdate p u = p then 0 else 1)
    else
      (p :: (updateOneParcel rest id u).1, (updateOneParcel rest id u).2)

/-- Model of `usersCollection.updateOne({ email: agentEmail },
{ $set: { availability: "available" } })` — the availability release run
after a terminal status update (lines 395-401 of the source). -/
def setAvailabilityAvailable : List User → String → List User
  | [], _ => []
  | x :: rest, e =>
    if x.email == e then { x with availability := some "available" } :: rest
    else x :: setAvailabilityAvailable rest e

/-- An email handed to `transporter.sendMail`. -/
structure Email where
  recipient : String
  subject : String
deriving DecidableEq

/-- Response of `PATCH /parcels/:id`: `ok n` is `res.send(result)` with
`modifiedCount = n`; `serverError` is the catch-all
`res.status(500).send(...)`. -/
inductive PatchResponse where
  | ok (modifiedCount : Nat)
  | serverError
deriving DecidableEq

/-- Observable outcome of one `PATCH /parcels/:id` request. -/
structure PatchResult where
  db : DB
  response : PatchResponse
  broadcasts : Nat
  emails : List Email
deriving DecidableEq

/-- The `PATCH /parcels/:id` handler (lines 368-439 of the source).  The
body is `$set` verbatim onto the matched parcel; when `modifiedCount > 0`
the handler emits `io.emit("status-updated")` and, when the requested
status is `Delivered` or `Failed`, re-fetches the parcel, releases the
assigned agent's availability (if the parcel carries an agent email) and
sends a status email to the parcel's owner.  `availFails` / `emailFails`
say whether the user-collection write or `sendMail` throws; a throw lands
in the handler's `catch`, which responds 500. -/
def patchParcel (db : DB) (id : Nat) (u : ParcelUpdate)
    (availFails emailFails : Bool) : PatchResult :=
  if (updateOneParcel db.parcels id u).2 > 0 then
    if u.status = some "Delivered" ∨ u.status = some "Failed" then
      match (updateOneParcel db.parcels id u).1.find? (fun p => p.pid == id) with
      | some parcel =>
        match parcel.deliveryAgent with
        | some agent =>
          if availFails then
            { db := { db with parcels := (updateOneParcel db.parcels id u).1 },
              response := .serverError, broadcasts := 1, emails := [] }
          else if emailFails then
            { db := { users := setAvailabilityAvailable db.users agent.email,
                      parcels := (updateOneParcel db.parcels id u).1 },
              response := .serverError, broadcasts := 1, emails := [] }
          else
            { db := { users := setAvailabilityAvailable db.users agent.email,
                      parcels := (updateOneParcel db.parcels id u).1 },
              response := .ok (updateOneParcel db.parcels id u).2,
              broadcasts := 1,
              emails := [{ recipient := parcel.email,
                           subject := "Parcel Status Update: " ++ u.status.getD "" }] }
        | none =>
          if emailFails then
            { db := { db with parcels := (updateOneParcel db.parcels id u).1 },
              response := .serverError, broadcasts := 1, emails := [] }
          else
            { db := { db with parcels := (updateOneParcel db.parcels id u).1 },
              response := .ok (updateOneParcel db.parcels id u).2,
              broadcasts := 1,
              emails := [{ recipient := parcel.email,
                           subject := "Parcel Status Update: " ++ u.status.getD "" }] }
      | none =>
        { db := { db with parcels := (updateOneParcel db.parcels id u).1 },
          response := .serverError, broadcasts := 1, emails := [] }
    else
      { db := { db with parcels := (updateOneParcel db.parcels id u).1 },
        response := .ok (updateOneParcel db.parcels id u).2,
        broadcasts := 1, emails := [] }
  else
    { db := { db with parcels := (updateOneParcel db.parcels id u).1 },
      response := .ok (updateOneParcel db.parcels id u).2,
      broadcasts := 0, emails := [] }

/-- Body of `POST /parcels`.  The handler spreads `...req.body` first and
then overrides `status`, `createdAt`, `_id`, `pickup`, `delivery`, so the
caller-supplied `reqId` / `reqStatus` / `reqCreatedAt` are ignored — but a
`deliveryAgent` field in the body is *not* overridden and survives into
the stored document. -/
structure BookRequest where
  email : String
  name : String
  pickupAddress : String
  deliveryAddress : String
  parcelSize : String
  paymentType : String
  reqId : Option Nat
  reqStatus : Option String
  reqCreatedAt : Option Nat
  deliveryAgent : Option AgentRef
deriving DecidableEq

/-- Response of `POST /parcels`: 400 `Invalid addresses`, success with the
inserted id, or the 500 `Booking failed` catch-all (reached e.g. when
`sendMail` throws after the insert). -/
inductive BookResponse where
  | invalidAddress
  | booked (insertedId : Nat)
  | bookingFailed
deriving DecidableEq

/-- The `POST /parcels` handler (lines 289-357 of the source).  `geo`
models `getCoordinates` (the external Nominatim lookup); the handler calls
it on each address with `", Dhaka"` appended.  `newId` is the `ObjectId`
generated server-side, `now` the `new Date()` value, `emailFails` whether
`sendMail` throws.  Returns the new state, the response, and the emails
handed to `sendMail`. -/
def bookParcel (db : DB) (req : BookRequest) (geo : String → Option Coord)
    (newId : Nat) (now : Nat) (emailFails : Bool) :
    DB × BookResponse × List Email :=
  let pickupCoords := geo (req.pickupAddress ++ ", Dhaka")
  let deliveryCoords := geo (req.deliveryAddress ++ ", Dhaka")
  if pickupCoords.isNone || deliveryCoords.isNone then
    (db, .invalidAddress, [])
  else
    let parcel : Parcel :=
      { pid := newId
        email := req.email
        name := req.name
        pickupAddress := req.pickupAddress
        deliveryAddress := req.deliveryAddress
        parcelSize := req.parcelSize
        paymentType := req.paymentType
        status := "Pending"
        createdAt := now
        pickup := pickupCoords
        delivery := deliveryCoords
        deliveryAgent := req.deliveryAgent }
    let db2 := { db with parcels := db.parcels ++ [parcel] }
    if emailFails then (db2, .bookingFailed, [])
    else (db2, .booked newId,
          [{ recipient := req.email, subject := "Parcel Booking Confirmation" }])

/-- The `GET /parcels` handler: `const query = email ? { email } : {}`.
In JavaScript both `undefined` (parameter absent) and the empty string are
falsy, so either yields the unfiltered query. -/
def getParcels (db : DB) (email : Option String) : List Parcel :=
  match email with
  | none => db.parcels
  | some e => if e = "" then db.parcels
              else db.parcels.filter (fun p => p.email == e)

/-- The `GET /parcels/assigned` handler (lines 442-462): query
`{ "deliveryAgent.email": email, status: { $nin: ["Delivered", "Failed"] } }`.
Note the `$nin` list names only `Delivered` and `Failed`. -/
def getAssignedParcels (db : DB) (email : String) : List Parcel :=
  db.parcels.filter (fun p =>
    p.deliveryAgent.map AgentRef.email == some email
    && !(p.status == "Delivered") && !(p.status == "Failed"))

/-- Body of `PATCH /users/role/:email`; absent fields are left alone by
`$set`. -/
structure UserUpdate where
  role : Option String
  availability : Option String
deriving DecidableEq

/-- Mongo `$set` of the present fields of a role/availability update onto
a user document. -/
def applyUserUpdate (x : User) (u : UserUpdate) : User :=
  { x with
    role := u.role.getD x.role
    availability := match u.availability with
      | some a => some a
      | none => x.availability }

/-- Model of `usersCollection.updateOne({ email }, { $set: updateData })`:
apply the `$set` to the first matching user document. -/
def updateOneUser : List User → String → UserUpdate → List User
  | [], _, _ => []
  | x :: rest, e, u =>
    if x.email == e then applyUserUpdate x u :: rest
    else x :: updateOneUser rest e u

/-- The `PATCH /users/role/:email` handler (lines 170-185): `$set` the
request body onto the matching user, unconditionally. -/
def patchUserRole (db : DB) (email : String) (u : UserUpdate) : DB :=
  { db with users := updateOneUser db.users email u }

/-- The `POST /users` handler: insert the user unless a document with the
same email already exists (409).  The Bool reports whether a document was
inserted. -/
def postUsers (db : DB) (u : User) : DB × Bool :=
  if db.users.any (fun x => x.email == u.email) then (db, false)
  else ({ db with users := db.users ++ [u] }, true)

/-- A parcel is an open (non-terminal) assignment of agent `e`: assigned
to `e` and not in one of the terminal states `Delivered`, `Failed`,
`Cancelled` (spec glossary). -/
def isOpenAssignment (p : Parcel) (e : String) : Bool :=
  p.deliveryAgent.map AgentRef.email == some e
  && !(p.status == "Delivered") && !(p.status == "Failed")
  && !(p.status == "Cancelled")

/-- The availability invariant claimed by the spec for the agent
directory: every user with the delivery-agent role whose email has at
least one open assignment must have availability `busy`. -/
def availabilityInvariant (db : DB) : Bool :=
  db.users.all (fun x =>
    !(x.role == "deliveryAgent")
    || db.parcels.all (fun p => !(isOpenAssignment p x.email))
    || (x.availability == some "busy"))

/-- Applying a parcel `$set` never touches the `_id`. -/
theorem applyUpdate_pid (p : Parcel) (u : ParcelUpdate) :
    (applyUpdate p u).pid = p.pid := rfl

/-- The document `findOne` sees after `updateOne` is the `$set`-image of
the one it saw before. -/
theorem updateOneParcel_find (ps : List Parcel) (id : Nat) (u : ParcelUpdate) :
    (updateOneParcel ps id u).1.find? (fun p => p.pid == id)
      = (ps.find? (fun p => p.pid == id)).map (fun p => applyUpdate p u) := by
  induction ps with
  | nil => rfl
  | cons p rest ih =>
    by_cases h : p.pid = id
    · simp [updateOneParcel, h, List.find?_cons, applyUpdate_pid]
    · simp [updateOneParcel, h, List.find?_cons, ih]

/-- When the matched document actually changes, `modifiedCount` is 1. -/
theorem updateOneParcel_snd_one (ps : List Parcel) (id : Nat) (u : ParcelUpdate)
    (p : Parcel) (hf : ps.find? (fun q => q.pid == id) = some p)
    (hch : applyUpdate p u ≠ p) :
    (updateOneParcel ps id u).2 = 1 := by
  induction ps with
  | nil => simp at hf
  | cons q rest ih =>
    by_cases h : q.pid = id
    · rw [List.find?_cons_of_pos _ (by simp [h])] at hf
      cases hf
      simp [updateOneParcel, h, hch]
    · rw [List.find?_cons_of_neg _ (by simp [h])] at hf
      simp [updateOneParcel, h, ih hf]

/-- In every branch of the `PATCH /parcels/:id` handler the stored parcels
are exactly the outcome of the already-committed `updateOne` — nothing
later in the handler rolls that write back. -/
theorem patchParcel_parcels (db : DB) (id : Nat) (u : ParcelUpdate)
    (aF eF : Bool) :
    (patchParcel db id u aF eF).db.parcels = (updateOneParcel db.parcels id u).1 := by
  unfold patchParcel
  repeat' split
  all_goals rfl

/-- The availability release rewrites the first user document matching the
agent email, leaving everything else identical. -/
theorem setAvailabilityAvailable_find (us : List User) (e : String) :
    (setAvailabilityAvailable us e).find? (fun x => x.email == e)
      = (us.find? (fun x => x.email == e)).map
          (fun x => { x with availability := some "available" }) := by
  induction us with
  | nil => rfl
  | cons x rest ih =>
    by_cases h : x.email = e
    · simp [setAvailabilityAvailable, h, List.find?_cons]
    · simp [setAvailabilityAvailable, h, List.find?_cons, ih]

/-- A `$set` that does not mention `createdAt` preserves every parcel's
`_id`-and-`createdAt` pair. -/
theorem updateOneParcel_createdAt (ps : List Parcel) (id : Nat)
    (u : ParcelUpdate) (h : u.createdAt = none) :
    ((updateOneParcel ps id u).1).map (fun p => (p.pid, p.createdAt))
      = ps.map (fun p => (p.pid, p.createdAt)) := by
  induction ps with
  | nil => rfl
  | cons p rest ih =>
    by_cases hp : p.pid = id
    · simp [updateOneParcel, hp, applyUpdate, h]
    · simp [updateOneParcel, hp, ih]

/-- Test geocoder that resolves every address (models Nominatim returning a
hit for each lookup). -/
def geoTest : String → Option Coord := fun _ => some ⟨23, 90⟩

/-- Test geocoder that resolves no address (models an empty Nominatim
result set, i.e. `getCoordinates` returning `null`). -/
def geoNone : String → Option Coord := fun _ => none

/-- A plain booking body with the documented fields only. -/
def bookReq (e pa da : String) : BookRequest :=
  { email := e, name := "N", pickupAddress := pa, deliveryAddress := da,
    parcelSize := "small", paymentType := "cod", reqId := none,
    reqStatus := none, reqCreatedAt := none, deliveryAgent := none }

/-- A `PATCH /parcels/:id` body that assigns the parcel to agent `e`. -/
def updAssignTo (e : String) : ParcelUpdate :=
  { status := some "Assigned", deliveryAgent := some ⟨e⟩, createdAt := none }

/-- A `PATCH /parcels/:id` body requesting the `Delivered` status. -/
def updDelivered : ParcelUpdate :=
  { status := some "Delivered", deliveryAgent := none, createdAt := none }

/-- A parcel that has already reached the terminal state `Delivered`. -/
def parcelDelivered : Parcel :=
  { pid := 1, email := "cust@x", name := "C", pickupAddress := "Gulshan",
    deliveryAddress := "Mirpur", parcelSize := "small", paymentType := "cod",
    status := "Delivered", createdAt := 100, pickup := some ⟨23, 90⟩,
    delivery := some ⟨23, 91⟩, deliveryAgent := some ⟨"agent@x"⟩ }

/-- Store holding one `Delivered` parcel and its (released) agent. -/
def dbDelivered : DB :=
  { users := [{ email := "agent@x", role := "deliveryAgent",
                availability := some "available" }],
    parcels := [parcelDelivered] }

/-- A parcel currently `Assigned` to agent `agent@x`. -/
def parcelAssigned : Parcel :=
  { pid := 1, email := "cust@x", name := "C", pickupAddress := "Gulshan",
    deliveryAddress := "Mirpur", parcelSize := "small", paymentType := "cod",
    status := "Assigned", createdAt := 100, pickup := some ⟨23, 90⟩,
    delivery := some ⟨23, 91⟩, deliveryAgent := some ⟨"agent@x"⟩ }

/-- The busy agent holding `parcelAssigned`. -/
def userAgentBusy : User :=
  { email := "agent@x", role := "deliveryAgent", availability := some "busy" }

/-- Store holding one `Assigned` parcel and its busy agent. -/
def dbAssigned : DB := { users := [userAgentBusy], parcels := [parcelAssigned] }

/-- Store produced by booking one parcel through `POST /parcels` (id 1,
created at time 100). -/
def dbBooked : DB :=
  (bookParcel { users := [], parcels := [] }
    (bookReq "cust@x" "Gulshan" "Mirpur") geoTest 1 100 false).1

/-- C1, counterexample.  The claim says a `PATCH /parcels/:id` whose
requested status is not a permitted successor — in particular any request
after the parcel reached `Delivered` — is rejected with `InvalidTransition`
and leaves the stored record entirely unchanged.  On a parcel already
`Delivered`, a request for `Assigned` in fact rewrites the stored status to
`Assigned` and answers with the ordinary success result (`modifiedCount`
1): the handler performs no transition validation at all. -/
theorem c1_counterexample :
    (patchParcel dbDelivered 1
      { status := some "Assigned", deliveryAgent := none, createdAt := none }
      false false).db.parcels = [{ parcelDelivered with status := "Assigned" }]
    ∧ (patchParcel dbDelivered 1
      { status := some "Assigned", deliveryAgent := none, createdAt := none }
      false false).response = .ok 1 := by decide

/-- C1, amended.  The handler applies the requested fields unconditionally
via `$set`: whatever the current status of the stored parcel — including
the terminal states `Delivered`, `Failed`, `Cancelled` — a request carrying
a status writes exactly that status, and no request is ever rejected with
`InvalidTransition` (the handler has no such response). -/
theorem c1_amended (db : DB) (id : Nat) (u : ParcelUpdate) (s : String)
    (p : Parcel) (aF eF : Bool)
    (hf : db.parcels.find? (fun q => q.pid == id) = some p)
    (hs : u.status = some s) :
    (patchParcel db id u aF eF).db.parcels.find? (fun q => q.pid == id)
        = some (applyUpdate p u)
    ∧ (applyUpdate p u).status = s := by
  constructor
  · rw [patchParcel_parcels, updateOneParcel_find, hf]
    rfl
  · simp [applyUpdate, hs]

/-- C1, witness for the amended theorem at the `Delivered` parcel. -/
theorem c1_amended_witness :
    (patchParcel dbDelivered 1
      { status := some "InTransit", deliveryAgent := none, createdAt := none }
      false false).db.parcels.find? (fun q => q.pid == 1)
        = some (applyUpdate parcelDelivered
            { status := some "InTransit", deliveryAgent := none, createdAt := none })
    ∧ (applyUpdate parcelDelivered
        { status := some "InTransit", deliveryAgent := none, createdAt := none }).status
        = "InTransit" :=
  c1_amended dbDelivered 1
    { status := some "InTransit", deliveryAgent := none, createdAt := none }
    "InTransit" parcelDelivered false false (by decide) rfl

/-- C5.  When either address resolves to no coordinates, `POST /parcels`
answers 400 `Invalid addresses` before inserting anything or touching the
mail transport: the store is unchanged and no email is produced, whatever
the rest of the request or the mail transport would have done. -/
theorem c5_invalid_address_atomic (db : DB) (req : BookRequest)
    (geo : String → Option Coord) (newId now : Nat) (eF : Bool)
    (h : geo (req.pickupAddress ++ ", Dhaka") = none
       ∨ geo (req.deliveryAddress ++ ", Dhaka") = none) :
    bookParcel db req geo newId now eF = (db, .invalidAddress, []) := by
  rcases h with h | h <;> simp [bookParcel, h]

/-- C5, witness: booking against the geocoder that resolves nothing. -/
theorem c5_invalid_address_atomic_witness :
    bookParcel { users := [], parcels := [] }
        (bookReq "cust@x" "Nowhere" "Mirpur") geoNone 1 100 false
      = ({ users := [], parcels := [] }, .invalidAddress, []) :=
  c5_invalid_address_atomic _ _ _ _ _ _ (Or.inl rfl)

/-- C9.  The availability release
`usersCollection.updateOne({ email }, { $set: { availability: "available" } })`
is idempotent: running it twice leaves exactly the user state that running
it once leaves, for every directory state and every agent email. -/
theorem c9_setAvailability_idempotent (us : List User) (e : String) :
    setAvailabilityAvailable (setAvailabilityAvailable us e) e
      = setAvailabilityAvailable us e := by
  induction us with
  | nil => rfl
  | cons x rest ih =>
    by_cases h : x.email = e
    · simp [setAvailabilityAvailable, h]
    · simp [setAvailabilityAvailable, h, ih]

/-- C10.  With the `email` query parameter absent, `GET /parcels` queries
with `{}` and returns every stored parcel; the owner filter is applied only
when an email value is supplied (a supplied non-empty value filters by the
`email` field — and, being JavaScript falsiness, a supplied empty string
also falls back to the unfiltered query). -/
theorem c10_no_email_returns_all (db : DB) :
    getParcels db none = db.parcels
    ∧ ∀ e : String, e ≠ "" →
        getParcels db (some e) = db.parcels.filter (fun p => p.email == e) := by
  refine ⟨rfl, ?_⟩
  intro e he
  simp [getParcels, he]

/-- C10, witness at the store with one booked parcel. -/
theorem c10_no_email_returns_all_witness :
    getParcels dbBooked none = dbBooked.parcels
    ∧ getParcels dbBooked (some "cust@x")
        = dbBooked.parcels.filter (fun p => p.email == "cust@x") :=
  ⟨(c10_no_email_returns_all dbBooked).1,
   (c10_no_email_returns_all dbBooked).2 "cust@x" (by decide)⟩

/-- C2.  When a `PATCH /parcels/:id` actually changes the stored parcel
(`modifiedCount` 1), requests `Delivered` or `Failed`, and the updated
parcel carries an assigned agent that exists in the user directory, the
handler (with both downstream collaborators succeeding) releases that
agent's availability to `available`, hands `sendMail` a status-change
email addressed to the parcel's owner, and emits one
`status-updated` broadcast. -/
theorem c2_terminal_side_effects (db : DB) (id : Nat) (u : ParcelUpdate)
    (s : String) (p : Parcel) (agent : AgentRef) (usr : User)
    (hf : db.parcels.find? (fun q => q.pid == id) = some p)
    (hch : applyUpdate p u ≠ p)
    (hs : u.status = some s)
    (ht : s = "Delivered" ∨ s = "Failed")
    (hag : (applyUpdate p u).deliveryAgent = some agent)
    (husr : db.users.find? (fun x => x.email == agent.email) = some usr) :
    (patchParcel db id u false false).db.users.find?
        (fun x => x.email == agent.email)
        = some { usr with availability := some "available" }
    ∧ (patchParcel db id u false false).emails
        = [{ recipient := (applyUpdate p u).email,
             subject := "Parcel Status Update: " ++ s }]
    ∧ (patchParcel db id u false false).broadcasts = 1 := by
  have h2 : (updateOneParcel db.parcels id u).2 = 1 :=
    updateOneParcel_snd_one _ _ _ _ hf hch
  have hfind2 : (updateOneParcel db.parcels id u).1.find? (fun q => q.pid == id)
      = some (applyUpdate p u) := by
    rw [updateOneParcel_find, hf]
    rfl
  have hres : patchParcel db id u false false
      = { db := { users := setAvailabilityAvailable db.users agent.email,
                  parcels := (updateOneParcel db.parcels id u).1 },
          response := .ok 1, broadcasts := 1,
          emails := [{ recipient := (applyUpdate p u).email,
                       subject := "Parcel Status Update: " ++ s }] } := by
    rcases ht with rfl | rfl <;> simp [patchParcel, h2, hs, hfind2, hag]
  rw [hres]
  refine ⟨?_, rfl, rfl⟩
  simp [setAvailabilityAvailable_find, husr]

/-- C2, witness: delivering the `Assigned` parcel of the busy agent. -/
theorem c2_terminal_side_effects_witness :
    (patchParcel dbAssigned 1 updDelivered false false).db.users.find?
        (fun x => x.email == "agent@x")
        = some { userAgentBusy with availability := some "available" }
    ∧ (patchParcel dbAssigned 1 updDelivered false false).emails
        = [{ recipient := (applyUpdate parcelAssigned updDelivered).email,
             subject := "Parcel Status Update: " ++ "Delivered" }]
    ∧ (patchParcel dbAssigned 1 updDelivered false false).broadcasts = 1 :=
  c2_terminal_side_effects dbAssigned 1 updDelivered "Delivered" parcelAssigned
    ⟨"agent@x"⟩ userAgentBusy (by decide) (by decide) rfl (Or.inl rfl)
    (by decide) (by decide)

/-- C3, counterexample.  The claim says a failure in the availability
release or the email dispatch is logged and swallowed: never an error
response, never preventing the other step.  In the code both steps run
inside the handler's single `try`: when the availability write throws on a
committed `Delivered` update, the `catch` answers 500, the email step never
runs, and the availability release itself is lost (users unchanged) — only
the parcel write survives. -/
theorem c3_counterexample :
    (patchParcel dbAssigned 1 updDelivered true false).response = .serverError
    ∧ (patchParcel dbAssigned 1 updDelivered true false).emails = []
    ∧ (patchParcel dbAssigned 1 updDelivered true false).db.users = dbAssigned.users
    ∧ (patchParcel dbAssigned 1 updDelivered true false).db.parcels
        = [{ parcelAssigned with status := "Delivered" }] := by decide

/-- C3, amended.  A failure in either post-commit step — the availability
release or the email dispatch — after a committed terminal update on a
parcel with an assigned agent indeed never rolls that write back: the
stored parcels always equal the outcome of the committed `updateOne`.
But the failure is not swallowed: the handler responds 500 and no email is
delivered.  The user-directory outcome depends on which step threw: an
availability-release failure leaves the directory untouched (and so also
prevents the email step, which never runs), while an email-dispatch
failure alone leaves the already-committed availability release in
place. -/
theorem c3_amended_no_rollback_but_error_surfaces (db : DB) (id : Nat)
    (u : ParcelUpdate) (s : String) (p : Parcel) (agent : AgentRef)
    (aF eF : Bool)
    (hfail : aF = true ∨ eF = true)
    (hf : db.parcels.find? (fun q => q.pid == id) = some p)
    (hch : applyUpdate p u ≠ p)
    (hs : u.status = some s)
    (ht : s = "Delivered" ∨ s = "Failed")
    (hag : (applyUpdate p u).deliveryAgent = some agent) :
    (patchParcel db id u aF eF).db.parcels = (updateOneParcel db.parcels id u).1
    ∧ (patchParcel db id u aF eF).response = .serverError
    ∧ (patchParcel db id u aF eF).emails = []
    ∧ (patchParcel db id u aF eF).db.users
        = cond aF db.users (setAvailabilityAvailable db.users agent.email) := by
  have h2 : (updateOneParcel db.parcels id u).2 = 1 :=
    updateOneParcel_snd_one _ _ _ _ hf hch
  have hfind2 : (updateOneParcel db.parcels id u).1.find? (fun q => q.pid == id)
      = some (applyUpdate p u) := by
    rw [updateOneParcel_find, hf]
    rfl
  cases aF with
  | true =>
    have hres : patchParcel db id u true eF
        = { db := { db with parcels := (updateOneParcel db.parcels id u).1 },
            response := .serverError, broadcasts := 1, emails := [] } := by
      rcases ht with rfl | rfl <;> simp [patchParcel, h2, hs, hfind2, hag]
    rw [hres]
    exact ⟨rfl, rfl, rfl, rfl⟩
  | false =>
    have heF : eF = true := by
      rcases hfail with h | h
      · exact Bool.noConfusion h
      · exact h
    subst heF
    have hres : patchParcel db id u false true
        = { db := { users := setAvailabilityAvailable db.users agent.email,
                    parcels := (updateOneParcel db.parcels id u).1 },
            response := .serverError, broadcasts := 1, emails := [] } := by
      rcases ht with rfl | rfl <;> simp [patchParcel, h2, hs, hfind2, hag]
    rw [hres]
    exact ⟨rfl, rfl, rfl, rfl⟩

/-- C3, witness for the amended theorem at the email-dispatch-failure case:
`sendMail` throws on the committed delivery, the handler answers 500 with
no email, the parcel write stands, and the availability release (which ran
before the throw) is committed. -/
theorem c3_amended_witness :
    (patchParcel dbAssigned 1 updDelivered false true).db.parcels
        = (updateOneParcel dbAssigned.parcels 1 updDelivered).1
    ∧ (patchParcel dbAssigned 1 updDelivered false true).response = .serverError
    ∧ (patchParcel dbAssigned 1 updDelivered false true).emails = []
    ∧ (patchParcel dbAssigned 1 updDelivered false true).db.users
        = cond false dbAssigned.users
            (setAvailabilityAvailable dbAssigned.users "agent@x") :=
  c3_amended_no_rollback_but_error_surfaces dbAssigned 1 updDelivered
    "Delivered" parcelAssigned ⟨"agent@x"⟩ false true (Or.inr rfl)
    (by decide) (by decide) rfl (Or.inl rfl) (by decide)

/-- Store built exclusively through the modeled operations: register the
agent, book two parcels, assign both to the agent, and have the admin mark
the agent busy. -/
def dbTwoOpen : DB :=
  let d0 : DB := { users := [], parcels := [] }
  let d1 := (postUsers d0
    { email := "agent@x", role := "deliveryAgent", availability := none }).1
  let d2 := (bookParcel d1 (bookReq "cust1@x" "Gulshan" "Mirpur") geoTest 1 100 false).1
  let d3 := (bookParcel d2 (bookReq "cust2@x" "Banani" "Uttara") geoTest 2 101 false).1
  let d4 := (patchParcel d3 1 (updAssignTo "agent@x") false false).db
  let d5 := patchUserRole d4 "agent@x" { role := none, availability := some "busy" }
  (patchParcel d5 2 (updAssignTo "agent@x") false false).db

/-- The first parcel of `dbTwoOpen`, as stored after its assignment. -/
def parcelTwoOpen1 : Parcel :=
  { pid := 1, email := "cust1@x", name := "N", pickupAddress := "Gulshan",
    deliveryAddress := "Mirpur", parcelSize := "small", paymentType := "cod",
    status := "Assigned", createdAt := 100, pickup := some ⟨23, 90⟩,
    delivery := some ⟨23, 90⟩, deliveryAgent := some ⟨"agent@x"⟩ }

/-- C4, counterexample.  The claim says the busy-iff-open-assignments
invariant is maintained by the status-update/assignment operations.  In a
state reached purely through the modeled operations — an agent marked busy
holding two open assignments, where the invariant holds — delivering just
one of the two parcels makes the handler release the agent to `available`
while the other assignment is still open, so the very next state violates
the invariant. -/
theorem c4_counterexample :
    availabilityInvariant dbTwoOpen = true
    ∧ availabilityInvariant
        (patchParcel dbTwoOpen 1 updDelivered false false).db = false := by
  decide

/-- C4, amended.  The operations do not maintain the claimed invariant;
what the handler guarantees is only the unconditional release: after a
committed `Delivered`/`Failed` update on a parcel whose assigned agent
exists in the user directory, that agent's availability is `available` —
regardless of how many other open assignments the agent still holds, and
whether or not the subsequent email dispatch fails. -/
theorem c4_amended_unconditional_release (db : DB) (id : Nat)
    (u : ParcelUpdate) (s : String) (p : Parcel) (agent : AgentRef)
    (usr : User) (eF : Bool)
    (hf : db.parcels.find? (fun q => q.pid == id) = some p)
    (hch : applyUpdate p u ≠ p)
    (hs : u.status = some s)
    (ht : s = "Delivered" ∨ s = "Failed")
    (hag : (applyUpdate p u).deliveryAgent = some agent)
    (husr : db.users.find? (fun x => x.email == agent.email) = some usr) :
    (patchParcel db id u false eF).db.users.find?
        (fun x => x.email == agent.email)
        = some { usr with availability := some "available" } := by
  have h2 : (updateOneParcel db.parcels id u).2 = 1 :=
    updateOneParcel_snd_one _ _ _ _ hf hch
  have hfind2 : (updateOneParcel db.parcels id u).1.find? (fun q => q.pid == id)
      = some (applyUpdate p u) := by
    rw [updateOneParcel_find, hf]
    rfl
  have husers : (patchParcel db id u false eF).db.users
      = setAvailabilityAvailable db.users agent.email := by
    rcases ht with rfl | rfl <;> cases eF <;>
      simp [patchParcel, h2, hs, hfind2, hag]
  rw [husers, setAvailabilityAvailable_find, husr]
  rfl

/-- C4, witness for the amended theorem: the release fires on the first
parcel of `dbTwoOpen` although the second assignment is still open. -/
theorem c4_amended_witness :
    (patchParcel dbTwoOpen 1 updDelivered false false).db.users.find?
        (fun x => x.email == "agent@x")
        = some { userAgentBusy with availability := some "available" } :=
  c4_amended_unconditional_release dbTwoOpen 1 updDelivered "Delivered"
    parcelTwoOpen1 ⟨"agent@x"⟩ userAgentBusy false (by decide) (by decide)
    rfl (Or.inl rfl) (by decide) (by decide)

/-- A booking body that smuggles a `deliveryAgent` field: the handler's
`...req.body` spread copies it into the stored document because, unlike
`status`/`createdAt`/`_id`, it is never overridden. -/
def reqWithAgent : BookRequest :=
  { bookReq "cust@x" "Gulshan" "Mirpur" with deliveryAgent := some ⟨"smuggled@x"⟩ }

/-- C6, counterexample.  The claim says every successfully booked parcel is
persisted with a null/absent assigned-agent reference.  A booking body
containing a `deliveryAgent` field survives the spread, so the persisted
record carries a non-null agent reference. -/
theorem c6_counterexample :
    ((bookParcel { users := [], parcels := [] } reqWithAgent geoTest 1 100
        false).1.parcels.map (fun p => p.deliveryAgent))
      = [some ⟨"smuggled@x"⟩] := by decide

/-- C6, amended.  When both addresses resolve and the body does not itself
carry a `deliveryAgent` field, the handler persists exactly one new record
with status `Pending`, non-null coordinates, absent agent reference, the
server-side creation time `now`, and the store-generated identifier
`newId` — the caller-supplied `reqId`/`reqStatus`/`reqCreatedAt` are
ignored, since `req` here is arbitrary — and then hands `sendMail` the
booking-confirmation email. -/
theorem c6_amended_booking_success (db : DB) (req : BookRequest)
    (geo : String → Option Coord) (newId now : Nat) (co1 co2 : Coord)
    (hp : geo (req.pickupAddress ++ ", Dhaka") = some co1)
    (hd : geo (req.deliveryAddress ++ ", Dhaka") = some co2)
    (hag : req.deliveryAgent = none) :
    bookParcel db req geo newId now false
      = ({ db with parcels := db.parcels ++
            [{ pid := newId, email := req.email, name := req.name,
               pickupAddress := req.pickupAddress,
               deliveryAddress := req.deliveryAddress,
               parcelSize := req.parcelSize, paymentType := req.paymentType,
               status := "Pending", createdAt := now,
               pickup := some co1, delivery := some co2,
               deliveryAgent := none }] },
         .booked newId,
         [{ recipient := req.email, subject := "Parcel Booking Confirmation" }]) := by
  simp [bookParcel, hp, hd, hag]

/-- A booking body that also tries to dictate the record id: ignored by the
handler. -/
def reqHonest : BookRequest :=
  { bookReq "cust@x" "Gulshan" "Mirpur" with reqId := some 999 }

/-- C6, witness: the id is 7 (the store-generated one), not the 999 the
caller supplied. -/
theorem c6_amended_booking_success_witness :
    bookParcel { users := [], parcels := [] } reqHonest geoTest 7 100 false
      = ({ users := [],
           parcels := [{ pid := 7, email := "cust@x", name := "N",
                         pickupAddress := "Gulshan", deliveryAddress := "Mirpur",
                         parcelSize := "small", paymentType := "cod",
                         status := "Pending", createdAt := 100,
                         pickup := some ⟨23, 90⟩, delivery := some ⟨23, 90⟩,
                         deliveryAgent := none }] },
         .booked 7,
         [{ recipient := "cust@x", subject := "Parcel Booking Confirmation" }]) :=
  c6_amended_booking_success { users := [], parcels := [] } reqHonest geoTest
    7 100 ⟨23, 90⟩ ⟨23, 90⟩ rfl rfl rfl

/-- Store built through the operations: book a parcel, assign it to
`agent@x`, then cancel it through the same unvalidated `PATCH`. -/
def dbCancelled : DB :=
  let d0 : DB := { users := [], parcels := [] }
  let d1 := (bookParcel d0 (bookReq "cust@x" "Gulshan" "Mirpur") geoTest 1 100 false).1
  let d2 := (patchParcel d1 1 (updAssignTo "agent@x") false false).db
  (patchParcel d2 1
    { status := some "Cancelled", deliveryAgent := none, createdAt := none }
    false false).db

/-- C7, counterexample.  The claim says the open-assignment query stops
returning a parcel once it reaches any terminal state, `Cancelled`
included.  The query's `$nin` list only names `Delivered` and `Failed`, so
after the assigned parcel transitions to `Cancelled` the query still
returns it. -/
theorem c7_counterexample :
    (getAssignedParcels dbCancelled "agent@x").map (fun p => p.status)
      = ["Cancelled"] := by decide

/-- C7, amended.  `GET /parcels/assigned?email=e` returns exactly the
parcels whose assigned-agent email is `e` and whose status is neither
`Delivered` nor `Failed` — so a parcel leaves the result set after those
two terminal states, but an assigned parcel in the third terminal state
`Cancelled` is still returned. -/
theorem c7_amended_assigned_query (db : DB) (e : String) (p : Parcel) :
    p ∈ getAssignedParcels db e
      ↔ p ∈ db.parcels ∧ p.deliveryAgent.map AgentRef.email = some e
          ∧ p.status ≠ "Delivered" ∧ p.status ≠ "Failed" := by
  simp [getAssignedParcels, List.mem_filter, and_assoc]

/-- C8, counterexample.  The claim says the creation timestamp is never
changed by any subsequent operation, including `PATCH` with arbitrary
bodies.  The handler `$set`s the body unsanitized, so a body carrying
`createdAt` rewrites the timestamp (here from booking time 100 to 999). -/
theorem c8_counterexample :
    ((patchParcel dbBooked 1
        { status := none, deliveryAgent := none, createdAt := some 999 }
        false false).db.parcels.map (fun p => p.createdAt)) = [999] := by decide

/-- C8, amended.  `createdAt` is set server-side at booking and is
preserved by every `PATCH /parcels/:id` whose body does not itself contain
a `createdAt` field; a body that does contain one overwrites the
timestamp, because the handler `$set`s the request body unsanitized. -/
theorem c8_amended_createdAt_preserved (db : DB) (id : Nat)
    (u : ParcelUpdate) (aF eF : Bool) (h : u.createdAt = none) :
    (patchParcel db id u aF eF).db.parcels.map (fun p => (p.pid, p.createdAt))
      = db.parcels.map (fun p => (p.pid, p.createdAt)) := by
  rw [patchParcel_parcels, updateOneParcel_createdAt _ _ _ h]

/-- C8, witness: an ordinary status update leaves the booked parcel's
timestamp at its booking value. -/
theorem c8_amended_createdAt_preserved_witness :
    (patchParcel dbBooked 1 (updAssignTo "agent@x") false false).db.parcels.map
        (fun p => (p.pid, p.createdAt))
      = dbBooked.parcels.map (fun p => (p.pid, p.createdAt)) :=
  c8_amended_createdAt_preserved dbBooked 1 (updAssignTo "agent@x")
    false false rfl

end Courier
